import Mathlib

/-!
Shallow embedding of `common/alsem.cpp` (al::semaphore, four platform
backends selected by preprocessor conditionals: Win32 kernel semaphore,
Apple libdispatch semaphore, Apple Mach semaphore with an atomic fast
path, generic POSIX unnamed semaphore).

Modelling conventions:
- Each backend is a namespace holding a state structure and the four
  member functions of `al::semaphore` (constructor, `post`, `wait`,
  `try_wait`), translated line by line from the source.
- Fallible constructors/`post` return `Except Errc _` where `Errc` holds
  the `std::errc` codes the source passes to `std::make_error_code`.
- Operations that contain an unbounded kernel wait return a `WaitRes` /
  `TryRes` value whose `blocked` constructor records the state at the
  moment the thread enters the kernel wait with no pending token and no
  interruption; `ret` records a return to the caller.
- OS behaviour that the source merely reacts to is passed in as explicit
  oracle arguments: `osOk : Bool` for whether the OS allocation call
  succeeds, `intr : Bool` (or a `List Bool` for a retry loop) for whether
  a kernel wait is interrupted (Mach `KERN_ABORTED`, POSIX `EINTR`).
- The Mach atomic counter is a C `intptr_t` (64-bit two's complement);
  its arithmetic is wrapped through `wrap64`.
- The execution model is sequential (no concurrent threads); atomics
  reduce to plain reads/writes and a `compare_exchange_weak` loop always
  lands (a spurious failure re-reads the unchanged value and retries).
-/

namespace Alsem

/-- The `std::errc` codes `alsem.cpp` reports via
`throw std::system_error(std::make_error_code(...))`. -/
inductive Errc where
  | value_too_large
  | resource_unavailable_try_again
deriving DecidableEq

/-- Result of an operation that may enter an unbounded kernel wait:
either it returns to the caller with state `s`, or it is blocked in the
kernel with state `s` at the moment of blocking. -/
inductive WaitRes (σ : Type) where
  | ret (s : σ)
  | blocked (s : σ)
deriving DecidableEq

/-- Result of a `try_wait` call: a boolean returned to the caller with
the resulting state, or blocked inside a kernel wait. -/
inductive TryRes (σ : Type) where
  | ret (b : Bool) (s : σ)
  | blocked (s : σ)
deriving DecidableEq

/-- The semaphore state observable after a `try_wait` call (at the point
of return, or at the point of blocking). -/
def TryRes.stateOf {σ : Type} : TryRes σ → σ
  | .ret _ s => s
  | .blocked s => s

/-- `std::numeric_limits<int>::max()`: the Win32 backend's capacity
bound, used both as the constructor's range check and as
`CreateSemaphore`'s `lMaximumCount`. -/
def INT_MAX : Nat := 2147483647

/-- `SEM_VALUE_MAX`, the POSIX counting-semaphore capacity at which
`sem_post` fails with `EOVERFLOW` (value on Linux/glibc, where it equals
`INT_MAX`). -/
def SEM_VALUE_MAX : Nat := 2147483647

/-- Two's-complement wraparound of a 64-bit signed integer (`intptr_t`),
the value type of the Mach backend's atomic counter. -/
def wrap64 (n : Int) : Int :=
  (n + 9223372036854775808) % 18446744073709551616 - 9223372036854775808

theorem wrap64_eq_self {n : Int} (h1 : -9223372036854775808 ≤ n)
    (h2 : n < 9223372036854775808) : wrap64 n = n := by
  unfold wrap64
  rw [Int.emod_eq_of_lt (by omega) (by omega)]
  omega

namespace Win32

/-- Win32 backend state: the count of the kernel semaphore object held
in `mSem` (a `HANDLE`); `CreateSemaphore` is given `lMaximumCount =
INT_MAX`, so the kernel keeps `count ≤ INT_MAX`. -/
structure WinSem where
  count : Nat
deriving DecidableEq

/-- `al::semaphore::semaphore(unsigned int initial)`, Win32 branch:
throws `value_too_large` when `initial > INT_MAX`, else calls
`CreateSemaphore(nullptr, initial, INT_MAX, nullptr)` and throws
`resource_unavailable_try_again` when that returns null (`osOk = false`).
The second component counts OS handles held when the constructor exits
(1 on success, 0 on every failure path: the range check throws before
any allocation, and a null `CreateSemaphore` result allocated nothing). -/
def semaphore (initial : Nat) (osOk : Bool) : Except Errc WinSem × Nat :=
  if INT_MAX < initial then (.error .value_too_large, 0)
  else if osOk then (.ok ⟨initial⟩, 1)
  else (.error .resource_unavailable_try_again, 0)

/-- `al::semaphore::post()`, Win32 branch: `ReleaseSemaphore(mSem, 1,
nullptr)` fails when the release would exceed `lMaximumCount`, in which
case the source throws `value_too_large`. -/
def post (s : WinSem) : Except Errc WinSem :=
  if s.count + 1 ≤ INT_MAX then .ok ⟨s.count + 1⟩
  else .error .value_too_large

/-- `al::semaphore::wait()`, Win32 branch:
`WaitForSingleObject(mSem, INFINITE)`: consumes a token when one is
available, otherwise blocks with no bound. -/
def wait (s : WinSem) : WaitRes WinSem :=
  if 0 < s.count then .ret ⟨s.count - 1⟩ else .blocked s

/-- `al::semaphore::try_wait()`, Win32 branch:
`WaitForSingleObject(mSem, 0) == WAIT_OBJECT_0`: a zero-timeout wait
either consumes a token (`WAIT_OBJECT_0`, true) or times out at once
(false); it never blocks. -/
def try_wait (s : WinSem) : TryRes WinSem :=
  if 0 < s.count then .ret true ⟨s.count - 1⟩ else .ret false s

end Win32

namespace Dispatch

/-- Apple libdispatch backend state: the internal signed value of the
`dispatch_semaphore_t` held in `mSem`. -/
structure DispatchSem where
  value : Int
deriving DecidableEq

/-- `al::semaphore::semaphore(unsigned int initial)`, dispatch branch:
`dispatch_semaphore_create(initial)`; the call returns null only for a
negative argument, which an `unsigned int` cannot produce, so the
`resource_unavailable_try_again` throw in the source is unreachable
here. -/
def semaphore (initial : Nat) : Except Errc DispatchSem :=
  .ok ⟨(initial : Int)⟩

/-- `al::semaphore::post()`, dispatch branch:
`dispatch_semaphore_signal(mSem)`: increments the value, waking a waiter
when one is recorded; its return value is ignored and the source has no
throw path. -/
def post (s : DispatchSem) : Except Errc DispatchSem :=
  .ok ⟨s.value + 1⟩

/-- `al::semaphore::wait()`, dispatch branch:
`dispatch_semaphore_wait(mSem, DISPATCH_TIME_FOREVER)`: decrements the
value and blocks without bound when the result is negative. -/
def wait (s : DispatchSem) : WaitRes DispatchSem :=
  if 0 < s.value then .ret ⟨s.value - 1⟩ else .blocked ⟨s.value - 1⟩

/-- `al::semaphore::try_wait()`, dispatch branch:
`dispatch_semaphore_wait(mSem, DISPATCH_TIME_NOW) == 0`: with an
already-expired timeout the wait either consumes a token (returns 0,
true) or restores the value and reports a timeout (false), never
blocking. -/
def try_wait (s : DispatchSem) : TryRes DispatchSem :=
  if 0 < s.value then .ret true ⟨s.value - 1⟩ else .ret false s

end Dispatch

namespace Mach

/-- Apple Mach backend state: `mSem.value`, the `std::atomic<intptr_t>`
fast-path counter, and the count of pending signals on the kernel
`semaphore_t` `mSem.sem` (a signal with no waiter present increments the
kernel count; a kernel wait consumes one pending signal). -/
structure MachSem where
  value : Int
  kcount : Nat
deriving DecidableEq

/-- One statement of the Mach-branch constructor body, recorded to state
facts about the order of its side effects. -/
inductive InitStep where
  | setPort
  | setValue (v : Int)
  | kernCreate (c : Nat)
deriving DecidableEq

/-- The statement order of `al::semaphore::semaphore`, Mach branch:
`mSem.sem = MACH_PORT_NULL;` then `mSem.value = initial;` then
`semaphore_create(mach_task_self(), &mSem.sem, SYNC_POLICY_FIFO, 0)`
(the kernel semaphore is created with value 0). -/
def initTrace (initial : Nat) : List InitStep :=
  [.setPort, .setValue (initial : Int), .kernCreate 0]

/-- `al::semaphore::semaphore(unsigned int initial)`, Mach branch: the
atomic counter is set to `initial`, the kernel semaphore is created with
count 0; a failing `semaphore_create` (`osOk = false`) throws
`resource_unavailable_try_again`. -/
def semaphore (initial : Nat) (osOk : Bool) : Except Errc MachSem :=
  if osOk then .ok ⟨(initial : Int), 0⟩
  else .error .resource_unavailable_try_again

/-- `al::semaphore::post()`, Mach branch:
`val = mSem.value.fetch_add(1)` (returns the pre-increment value), then
`if (val <= 0) semaphore_signal(mSem.sem);`. The second component is the
number of `semaphore_signal` calls made. No throw path exists. -/
def post (s : MachSem) : MachSem × Nat :=
  let val := s.value
  if val ≤ 0 then (⟨wrap64 (val + 1), s.kcount + 1⟩, 1)
  else (⟨wrap64 (val + 1), s.kcount⟩, 0)

/-- `al::semaphore::wait()`, Mach branch:
`val = mSem.value.fetch_sub(1)` (returns the pre-decrement value), then
`if (val < 0) semaphore_wait(mSem.sem);` — one kernel wait whose result
is ignored (a `KERN_ABORTED` interruption, `intr = true`, still returns
to the caller; there is no retry loop). The second component is the
number of `semaphore_wait` calls made. -/
def wait (s : MachSem) (intr : Bool) : WaitRes MachSem × Nat :=
  let val := s.value
  let s1 : MachSem := ⟨wrap64 (val - 1), s.kcount⟩
  if val < 0 then
    if 0 < s1.kcount then (.ret ⟨s1.value, s1.kcount - 1⟩, 1)
    else if intr then (.ret s1, 1)
    else (.blocked s1, 1)
  else (.ret s1, 0)

/-- `al::semaphore::try_wait()`, Mach branch: load `orig = mSem.value`;
while `orig < 0`, `compare_exchange_weak(orig, orig + 1)` and return
false on success (sequentially the CAS lands with the loaded value);
when the loaded value is non-negative, fall through to
`semaphore_wait(mSem.sem) == KERN_SUCCESS` — an unbounded kernel wait
that consumes a pending signal when one exists (true), returns false if
interrupted (`KERN_ABORTED`), and otherwise blocks. The atomic counter
is never decremented. -/
def try_wait (s : MachSem) (intr : Bool) : TryRes MachSem :=
  if s.value < 0 then .ret false ⟨wrap64 (s.value + 1), s.kcount⟩
  else if 0 < s.kcount then .ret true ⟨s.value, s.kcount - 1⟩
  else if intr then .ret false s
  else .blocked s

end Mach

namespace Posix

/-- POSIX backend state: the value of the unnamed `sem_t` `mSem`. -/
structure PosixSem where
  count : Nat
deriving DecidableEq

/-- `al::semaphore::semaphore(unsigned int initial)`, POSIX branch:
`sem_init(&mSem, 0, initial)` fails (with `EINVAL`) when `initial`
exceeds `SEM_VALUE_MAX`, and may fail for other reasons (`osOk =
false`); any failure makes the source throw
`resource_unavailable_try_again`. -/
def semaphore (initial : Nat) (osOk : Bool) : Except Errc PosixSem :=
  if SEM_VALUE_MAX < initial then .error .resource_unavailable_try_again
  else if osOk then .ok ⟨initial⟩
  else .error .resource_unavailable_try_again

/-- `al::semaphore::post()`, POSIX branch: `sem_post(&mSem)` fails with
`EOVERFLOW` when the count is already `SEM_VALUE_MAX`, in which case the
source throws `value_too_large`. -/
def post (s : PosixSem) : Except Errc PosixSem :=
  if s.count < SEM_VALUE_MAX then .ok ⟨s.count + 1⟩
  else .error .value_too_large

/-- `al::semaphore::wait()`, POSIX branch:
`while(sem_wait(&mSem) == -1 && errno == EINTR) {}` — each list element
says whether the corresponding `sem_wait` call is interrupted by a
signal (`EINTR`); an interrupted call is retried, a successful call
consumes a token, and a call made with no token and no interruption
blocks without bound. The second component is the number of `sem_wait`
calls made. -/
def wait (s : PosixSem) : List Bool → WaitRes PosixSem × Nat
  | [] =>
    if 0 < s.count then (.ret ⟨s.count - 1⟩, 1) else (.blocked s, 1)
  | i :: rest =>
    if 0 < s.count then (.ret ⟨s.count - 1⟩, 1)
    else if i then ((wait s rest).1, (wait s rest).2 + 1)
    else (.blocked s, 1)

/-- `al::semaphore::try_wait()`, POSIX branch:
`sem_trywait(&mSem) == 0`: consumes a token when one is available (0,
true), else fails at once with `EAGAIN` (false); it never blocks. -/
def try_wait (s : PosixSem) : TryRes PosixSem :=
  if 0 < s.count then .ret true ⟨s.count - 1⟩ else .ret false s

end Posix

/-- Recognizer for the constructor statement `mSem.value = initial`. -/
def isSetValue : Mach.InitStep → Bool
  | .setValue _ => true
  | _ => false

/-- Recognizer for the constructor statement `semaphore_create(...)`. -/
def isKernCreate : Mach.InitStep → Bool
  | .kernCreate _ => true
  | _ => false

/-- Claim C1 (failing-input evaluation). Mach `wait` entered with the
atomic counter at 0: `fetch_sub` returns the pre-decrement value 0, the
test `val < 0` is false, so the call makes no `semaphore_wait` call (the
count of kernel waits is 0) and returns at once with the counter at -1
— the thread does not block even though the post-decrement value is
negative. -/
theorem mach_wait_zero_no_block :
    Mach.wait ⟨0, 0⟩ false = (.ret ⟨-1, 0⟩, 0) := by decide

/-- Claim C2 (failing-input evaluation). Mach backend with initial count
N = 1: construction yields counter 1 and kernel count 0; the first
`try_wait` loads 1 ≥ 0, falls through to the kernel `semaphore_wait`,
finds no pending signal, and blocks instead of returning true. -/
theorem mach_construct_try_wait_blocks :
    Mach.semaphore 1 true = .ok ⟨1, 0⟩ ∧
    Mach.try_wait ⟨1, 0⟩ false = .blocked ⟨1, 0⟩ := by
  exact ⟨rfl, by decide⟩

/-- Claim C3. Mach `post` signals the kernel object exactly once iff the
pre-increment counter value was ≤ 0, makes no kernel call when it was
positive, and (within `intptr_t` range) increments the counter by one. -/
theorem mach_post_signal_iff (s : Mach.MachSem) :
    ((Mach.post s).2 = 1 ↔ s.value ≤ 0) ∧
    (0 < s.value → (Mach.post s).2 = 0) ∧
    (-9223372036854775808 ≤ s.value → s.value + 1 < 9223372036854775808 →
      (Mach.post s).1.value = s.value + 1) ∧
    (Mach.post s).1.kcount = s.kcount + (Mach.post s).2 := by
  unfold Mach.post
  by_cases h : s.value ≤ 0
  · simp only [h, if_pos]
    refine ⟨by simp, by omega, ?_, by simp⟩
    intro h1 h2
    simpa using wrap64_eq_self (by omega) (by omega)
  · simp only [h, if_neg, if_false]
    refine ⟨by simp, by simp, ?_, by simp⟩
    intro h1 h2
    simpa using wrap64_eq_self (by omega) (by omega)

/-- Claim C3 witness: at counter 0 with kernel count 0, `post` signals
once and leaves the counter at 1. -/
theorem mach_post_signal_iff_witness :
    (Mach.post ⟨0, 0⟩).2 = 1 ∧
    (Mach.post (⟨0, 0⟩ : Mach.MachSem)).1.value =
      (⟨0, 0⟩ : Mach.MachSem).value + 1 :=
  ⟨(mach_post_signal_iff ⟨0, 0⟩).1.mpr (by decide),
   (mach_post_signal_iff ⟨0, 0⟩).2.2.1 (by decide) (by decide)⟩

/-- Claim C4 counterexample: a `post` on the POSIX backend — not the
Win32 backend — surfaces an error: with the count at `SEM_VALUE_MAX`,
`sem_post` fails and the source throws `value_too_large`, refuting
"on every other backend every call to post returns success". -/
theorem posix_post_overflow_counterexample :
    Posix.post ⟨SEM_VALUE_MAX⟩ = .error .value_too_large := by rfl

/-- Claim C4 (amended). `post` surfaces the overflow error
(`value_too_large`) exactly when the native maximum is hit, on both the
Win32 backend and the POSIX backend; the Dispatch backend's `post`
always succeeds (and the Mach `post` has no error path at all: its
embedding returns no `Except`). -/
theorem post_overflow_backends :
    (∀ s : Win32.WinSem, Win32.post s = .error .value_too_large ↔
      INT_MAX ≤ s.count) ∧
    (∀ s : Posix.PosixSem, Posix.post s = .error .value_too_large ↔
      SEM_VALUE_MAX ≤ s.count) ∧
    (∀ s : Dispatch.DispatchSem, Dispatch.post s = .ok ⟨s.value + 1⟩) := by
  refine ⟨fun s => ?_, fun s => ?_, fun s => rfl⟩
  · unfold Win32.post
    by_cases h : s.count + 1 ≤ INT_MAX
    · simp only [h, if_pos]
      constructor
      · intro hcontra
        exact absurd hcontra (by simp)
      · omega
    · simp only [h, if_neg, if_false]
      constructor
      · intro _
        omega
      · intro _
        trivial
  · unfold Posix.post
    by_cases h : s.count < SEM_VALUE_MAX
    · simp only [h, if_pos]
      constructor
      · intro hcontra
        exact absurd hcontra (by simp)
      · omega
    · simp only [h, if_neg, if_false]
      constructor
      · intro _
        omega
      · intro _
        trivial

/-- Claim C4 witness: the Win32 backend at `INT_MAX` overflows on
`post`, and a POSIX `post` below the maximum does not error. -/
theorem post_overflow_backends_witness :
    Win32.post ⟨INT_MAX⟩ = .error .value_too_large ∧
    Dispatch.post ⟨7⟩ = .ok ⟨7 + 1⟩ :=
  ⟨(post_overflow_backends.1 ⟨INT_MAX⟩).mpr (by decide),
   post_overflow_backends.2.2 ⟨7⟩⟩

/-- Claim C5. Win32 constructor: every `initial` in `unsigned int` range
strictly above `INT_MAX` fails with `value_too_large` before any OS
allocation, and every construction failure (either error) leaves zero OS
handles allocated. -/
theorem win_construct_invalid_no_leak :
    (∀ initial osOk, initial < 4294967296 → INT_MAX < initial →
      Win32.semaphore initial osOk = (.error .value_too_large, 0)) ∧
    (∀ initial osOk e, (Win32.semaphore initial osOk).1 = .error e →
      (Win32.semaphore initial osOk).2 = 0) := by
  constructor
  · intro initial osOk _ h
    unfold Win32.semaphore
    simp [h]
  · intro initial osOk e h
    unfold Win32.semaphore at h ⊢
    by_cases h1 : INT_MAX < initial
    · simp [h1]
    · cases osOk
      · simp [h1]
      · simp [h1] at h

/-- Claim C5 witness: `initial = 2147483648 = INT_MAX + 1` fails with
`value_too_large` and no handle allocated; an OS allocation failure at
`initial = 0` also leaves no handle allocated. -/
theorem win_construct_invalid_no_leak_witness :
    Win32.semaphore 2147483648 true = (.error .value_too_large, 0) ∧
    (Win32.semaphore 0 false).2 = 0 :=
  ⟨win_construct_invalid_no_leak.1 2147483648 true (by decide) (by decide),
   win_construct_invalid_no_leak.2 0 false .resource_unavailable_try_again
     (by rfl)⟩

/-- Claim C6 (failing-input evaluation). Mach `wait` entered with the
counter at -1 (so it must block) and the kernel wait interrupted
(`KERN_ABORTED`): the source makes exactly one `semaphore_wait` call,
ignores its result, and returns to the caller with the kernel count
unchanged — no token was consumed and the interruption was not retried.
By contrast the POSIX `wait` retries `EINTR`: with no token and one
interruption it makes a second `sem_wait` call. -/
theorem mach_wait_aborted_no_retry :
    Mach.wait ⟨-1, 0⟩ true = (.ret ⟨-2, 0⟩, 1) ∧
    Posix.wait ⟨0⟩ [true] = (.blocked ⟨0⟩, 2) := by
  constructor
  · decide
  · simp [Posix.wait]

/-- Claim C7 counterexample: the Mach `try_wait` with counter 0 and no
pending kernel signal reaches the unbounded `semaphore_wait` and blocks,
refuting "try_wait never reaches an unbounded blocking kernel-wait
call". -/
theorem mach_try_wait_blocked_counterexample :
    Mach.try_wait ⟨0, 0⟩ false = .blocked ⟨0, 0⟩ := by decide

/-- Claim C7 (amended). `try_wait` returns without blocking on the
Win32, Dispatch and POSIX backends for every state (their embeddings
never produce a `blocked` outcome); the Mach `try_wait` falls through to
an unbounded kernel wait whenever the loaded counter is non-negative,
and blocks there when the kernel semaphore has no pending signal and no
interruption occurs. No backend's `post` contains a kernel wait. -/
theorem try_wait_nonblocking_backends :
    (∀ s : Win32.WinSem, ∃ b s1, Win32.try_wait s = .ret b s1) ∧
    (∀ s : Dispatch.DispatchSem, ∃ b s1, Dispatch.try_wait s = .ret b s1) ∧
    (∀ s : Posix.PosixSem, ∃ b s1, Posix.try_wait s = .ret b s1) ∧
    (∀ s : Mach.MachSem, 0 ≤ s.value → s.kcount = 0 →
      Mach.try_wait s false = .blocked s) := by
  refine ⟨fun s => ?_, fun s => ?_, fun s => ?_, fun s h1 h2 => ?_⟩
  · unfold Win32.try_wait
    by_cases h : 0 < s.count <;> simp [h]
  · unfold Dispatch.try_wait
    by_cases h : 0 < s.value <;> simp [h]
  · unfold Posix.try_wait
    by_cases h : 0 < s.count <;> simp [h]
  · unfold Mach.try_wait
    have h3 : ¬s.value < 0 := by omega
    simp [h2, h3]

/-- Claim C7 witness: Mach `try_wait` at counter 5 with kernel count 0
blocks; the Win32 `try_wait` on an empty semaphore returns. -/
theorem try_wait_nonblocking_backends_witness :
    Mach.try_wait ⟨5, 0⟩ false = .blocked ⟨5, 0⟩ :=
  try_wait_nonblocking_backends.2.2.2 ⟨5, 0⟩ (by decide) rfl

/-- Claim C8. The oversized-initial condition of the Win32 constructor
(the spec's `InvalidArgument`) and the `post` overflow condition (the
spec's `Overflow`, on Win32 and POSIX alike) are all reported with the
one error code `value_too_large`, so the code value does not identify
which condition occurred. -/
theorem invalid_argument_overflow_same_errc :
    (∀ initial osOk, INT_MAX < initial →
      (Win32.semaphore initial osOk).1 = .error .value_too_large) ∧
    (∀ s : Win32.WinSem, INT_MAX ≤ s.count →
      Win32.post s = .error .value_too_large) ∧
    (∀ s : Posix.PosixSem, SEM_VALUE_MAX ≤ s.count →
      Posix.post s = .error .value_too_large) := by
  refine ⟨fun initial osOk h => ?_, fun s h => ?_, fun s h => ?_⟩
  · unfold Win32.semaphore
    simp [h]
  · unfold Win32.post
    have h1 : ¬s.count + 1 ≤ INT_MAX := by omega
    simp [h1]
  · unfold Posix.post
    have h1 : ¬s.count < SEM_VALUE_MAX := by omega
    simp [h1]

/-- Claim C8 witness: both an oversized construction and an overflowing
`post` evaluate to the same `value_too_large` code. -/
theorem invalid_argument_overflow_same_errc_witness :
    (Win32.semaphore 3000000000 true).1 = .error .value_too_large ∧
    Win32.post ⟨2147483647⟩ = .error .value_too_large ∧
    Posix.post ⟨2147483647⟩ = .error .value_too_large :=
  ⟨invalid_argument_overflow_same_errc.1 3000000000 true (by decide),
   invalid_argument_overflow_same_errc.2.1 ⟨2147483647⟩ (by decide),
   invalid_argument_overflow_same_errc.2.2 ⟨2147483647⟩ (by decide)⟩

/-- Claim C9. The Mach constructor creates the kernel semaphore with
count 0 for every requested initial value (the only `semaphore_create`
call in the statement trace passes 0), represents the initial tokens
solely in the atomic counter, and performs the counter store strictly
before the kernel-creation call. -/
theorem mach_construct_kernel_zero (initial : Nat) :
    (∀ osOk s, Mach.semaphore initial osOk = .ok s →
      s.kcount = 0 ∧ s.value = (initial : Int)) ∧
    (∀ c, Mach.InitStep.kernCreate c ∈ Mach.initTrace initial → c = 0) ∧
    (Mach.initTrace initial).findIdx isSetValue <
      (Mach.initTrace initial).findIdx isKernCreate := by
  refine ⟨fun osOk s h => ?_, fun c hc => ?_, ?_⟩
  · cases osOk
    · exact absurd h (by simp [Mach.semaphore])
    · simp only [Mach.semaphore, if_pos] at h
      cases h
      exact ⟨rfl, rfl⟩
  · simp [Mach.initTrace] at hc
    exact hc
  · simp [Mach.initTrace, List.findIdx_cons, isSetValue, isKernCreate]

/-- Claim C9 witness: constructing with initial count 5 yields counter 5
and kernel count 0. -/
theorem mach_construct_kernel_zero_witness :
    (⟨5, 0⟩ : Mach.MachSem).kcount = 0 ∧
    (⟨5, 0⟩ : Mach.MachSem).value = ((5 : Nat) : Int) :=
  (mach_construct_kernel_zero 5).1 true ⟨5, 0⟩ rfl

/-- Claim C10. Mach `try_wait` leaves the atomic counter untouched
whenever the loaded value is non-negative (no decrement happens before
or after its kernel wait, on the success, interrupted, and blocked paths
alike); the counter is written only on the returning-false fast path,
where the CAS stores the loaded value plus one. -/
theorem mach_try_wait_counter_frame (s : Mach.MachSem) (intr : Bool) :
    (0 ≤ s.value → (Mach.try_wait s intr).stateOf.value = s.value) ∧
    (-9223372036854775808 ≤ s.value → s.value < 0 →
      Mach.try_wait s intr = .ret false ⟨s.value + 1, s.kcount⟩) := by
  constructor
  · intro h
    have h0 : ¬s.value < 0 := by omega
    unfold Mach.try_wait
    cases intr <;> by_cases hk : 0 < s.kcount <;>
      simp [h0, hk, TryRes.stateOf]
  · intro h1 h2
    unfold Mach.try_wait
    rw [if_pos h2, wrap64_eq_self (by omega) (by omega)]

/-- Claim C10 witness: at counter 2 the counter survives `try_wait`
unchanged even through an interrupted kernel wait; at counter -3 the
call returns false with the counter moved to -2. -/
theorem mach_try_wait_counter_frame_witness :
    (Mach.try_wait ⟨2, 0⟩ true).stateOf.value = (⟨2, 0⟩ : Mach.MachSem).value ∧
    Mach.try_wait ⟨-3, 4⟩ false = .ret false ⟨-3 + 1, 4⟩ :=
  ⟨(mach_try_wait_counter_frame ⟨2, 0⟩ true).1 (by decide),
   (mach_try_wait_counter_frame ⟨-3, 4⟩ false).2 (by decide) (by decide)⟩

end Alsem
